import Mathlib

/-!
Shallow embedding of the authentication subsystem of the fitness-tracking
backend: JWT issuance/verification (src/core/auth.py), password hashing
(src/core/security.py), user CRUD (src/curd/user.py) and the register/login
endpoints (src/api/login.py).

Modelling conventions:
* Wall-clock time is an integer count of UTC epoch seconds, matching
  python-jose, which converts datetimes with `timegm` to integer seconds.
* The HMAC signature of a JWT is modelled ideally: the signature records the
  signing key and the exact payload it covers, and signature verification is
  equality of that record with the presented data.  This makes honest
  signatures verify and makes any token that is not an honest signature under
  the server key fail, which is the standard ideal-MAC abstraction of HMAC.
* The bcrypt salt drawn by passlib on each `hash` call is an explicit `Nat`
  parameter; distinct draws model the randomized salt.
* passlib raises `UnknownHashError` when a stored hash cannot be identified;
  fallible operations therefore return `Except`.
-/

namespace FitnessApp

/-! ### Settings (src/core/config.py) -/

structure Settings where
  SECRET_KEY : String
  ALGORITHM : String := "HS256"
  ACCESS_TOKEN_EXPIRE_MINUTES : Int := 30
deriving DecidableEq, Repr

/-! ### JWT layer (python-jose, as called from src/core/auth.py) -/

/-- The claim set `{"exp": ..., "sub": ...}` built by `create_access_token`.
`exp` is an integer UTC timestamp; `sub` is absent or a string. -/
structure JwtPayload where
  exp : Int
  sub : Option String
deriving DecidableEq, Repr

/-- An encoded, signed token.  `sigKey` and `sigBody` are the ideal-MAC
signature: the key the token was signed with and the payload the signature
covers.  A token verifies under `secret` iff `sigKey = secret` and
`sigBody = payload`. -/
structure Jwt where
  payload : JwtPayload
  sigKey : String
  sigBody : JwtPayload
deriving DecidableEq, Repr

inductive JwtError where
  | invalidSignature
  | expiredSignature
deriving DecidableEq, Repr

/-- `jose.jwt.encode(claims, key, algorithm)`: serialize the claims and sign
them with the key. -/
def jwtEncode (secret : String) (p : JwtPayload) : Jwt :=
  { payload := p, sigKey := secret, sigBody := p }

/-- `jose.jwt.decode(token, key, algorithms)`: check the signature, then the
`exp` claim.  python-jose rejects an expired token with
`ExpiredSignatureError` exactly when `exp < now` (leeway 0), both being
integer UTC seconds.  Both errors are subclasses of `JWTError`. -/
def jwtDecode (secret : String) (now : Int) (t : Jwt) : Except JwtError JwtPayload :=
  if t.sigKey = secret ∧ t.sigBody = t.payload then
    if t.payload.exp < now then .error .expiredSignature
    else .ok t.payload
  else .error .invalidSignature

/-- `create_access_token(subject, expires_delta)` from src/core/auth.py:
expiry is `now + expires_delta` when a delta is supplied, else
`now + ACCESS_TOKEN_EXPIRE_MINUTES` minutes; the payload is
`{"exp": expire, "sub": str(subject)}` (for a string subject, `str` is the
identity).  `expires_delta` is in seconds here. -/
def create_access_token (s : Settings) (now : Int) (subject : String)
    (expires_delta : Option Int) : Jwt :=
  let expire : Int :=
    match expires_delta with
    | some d => now + d
    | none => now + s.ACCESS_TOKEN_EXPIRE_MINUTES * 60
  jwtEncode s.SECRET_KEY { exp := expire, sub := some subject }

/-! ### Password hashing (src/core/security.py, passlib bcrypt) -/

/-- A stored password-hash string: either a well-formed bcrypt hash
(identifiable by its `$2b$...` prefix, carrying its salt and digest) or some
other string that passlib cannot identify as a hash. -/
inductive HashStr where
  | bcrypt (salt : Nat) (digest : String × Nat)
  | malformed (raw : String)
deriving DecidableEq, Repr

/-- Ideal model of the bcrypt digest of a password under a salt. -/
def bcryptDigest (password : String) (salt : Nat) : String × Nat :=
  (password, salt)

/-- `get_password_hash(password)`: bcrypt with a freshly drawn random salt;
the draw is the explicit `salt` argument. -/
def get_password_hash (password : String) (salt : Nat) : HashStr :=
  .bcrypt salt (bcryptDigest password salt)

/-- passlib raises `UnknownHashError` (a `ValueError`) from
`CryptContext.verify` when the stored hash cannot be identified. -/
inductive PasslibError where
  | unknownHash
deriving DecidableEq, Repr

/-- `verify_password(plain_password, hashed_password)`: passlib recomputes
the digest under the stored salt and compares; on a malformed stored hash it
raises rather than returning. -/
def verify_password (plain : String) (h : HashStr) : Except PasslibError Bool :=
  match h with
  | .bcrypt salt digest => .ok (decide (digest = bcryptDigest plain salt))
  | .malformed _ => .error .unknownHash

/-! ### Data model (User rows and pydantic schemas, src/schemas.py) -/

/-- A persisted `User` row, with the fields written by `create_user`. -/
structure User where
  id : Nat
  username : String
  email : String
  password_hash : HashStr
  is_active : Bool
  created_at : Int
deriving DecidableEq, Repr

/-- The user table, in insertion order (`first()` takes the first match). -/
abbrev Store := List User

/-- `UserCreate` (src/schemas.py): the registration request body.
`is_active` defaults to `True` and is accepted from the client. -/
structure UserCreate where
  email : String
  username : String
  is_active : Bool := true
  password : String
deriving DecidableEq, Repr

/-- `UserRead` (src/schemas.py): the public response shape — id, email,
username, is_active, created_at; no password and no password hash. -/
structure UserRead where
  email : String
  username : String
  is_active : Bool
  id : Nat
  created_at : Int
deriving DecidableEq, Repr

/-- Serializing a `User` through `response_model=UserRead`. -/
def UserRead.ofUser (u : User) : UserRead :=
  { email := u.email, username := u.username, is_active := u.is_active,
    id := u.id, created_at := u.created_at }

/-! ### User CRUD (src/curd/user.py) -/

def get_user_by_username (store : Store) (username : String) : Option User :=
  store.find? (fun u => u.username == username)

def get_user_by_email (store : Store) (email : String) : Option User :=
  store.find? (fun u => u.email == email)

/-- `create_user(session, user_create)`: hash the password, insert a row with
`is_active=True` (hardcoded; the client-supplied `is_active` field is never
read).  The database assigns the next id.  Returns the new row and the
updated table. -/
def create_user (store : Store) (user_create : UserCreate) (salt : Nat)
    (now : Int) : User × Store :=
  let db_user : User :=
    { id := store.length + 1
      username := user_create.username
      email := user_create.email
      password_hash := get_password_hash user_create.password salt
      is_active := true
      created_at := now }
  (db_user, store ++ [db_user])

/-- `authenticate_user(session, username, password)`: look the user up by
username; `None` when absent or when the password does not verify.  A
malformed stored hash propagates the passlib exception. -/
def authenticate_user (store : Store) (username password : String) :
    Except PasslibError (Option User) :=
  match get_user_by_username store username with
  | none => .ok none
  | some user =>
    match verify_password password user.password_hash with
    | .error e => .error e
    | .ok b => if b then .ok (some user) else .ok none

/-! ### HTTP layer (src/core/auth.py and src/api/login.py) -/

/-- An `HTTPException(status_code, detail)`. -/
structure HTTPError where
  status_code : Nat
  detail : String
deriving DecidableEq, Repr

/-- The single exception raised by `get_current_user` for every
authentication failure. -/
def credentialsException : HTTPError :=
  { status_code := 401, detail := "Could not validate credentials" }

/-- `get_current_user(token, session)` from src/core/auth.py: decode the
token (any `JWTError`, including expiry, maps to the 401
`credentials_exception`); reject when the payload carries no `"sub"` claim
(`payload.get("sub") is None`); `TokenPayload(sub=username)` always validates
for a string `sub`, the empty string included, since the schema field is an
unconstrained `Optional[str]`; finally look the subject up in the store and
reject with the same 401 when no row matches. -/
def get_current_user (s : Settings) (now : Int) (store : Store) (token : Jwt) :
    Except HTTPError User :=
  match jwtDecode s.SECRET_KEY now token with
  | .error _ => .error credentialsException
  | .ok payload =>
    match payload.sub with
    | none => .error credentialsException
    | some username =>
      match get_user_by_username store username with
      | none => .error credentialsException
      | some user => .ok user

/-- Outcome of the `/register` endpoint. -/
inductive RegisterResult where
  | created (body : UserRead)
  | failure (e : HTTPError)
deriving DecidableEq, Repr

/-- `register(user_in, session)` from src/api/login.py: 400 when the username
or the email is already taken, otherwise create the user and return it
serialized through `response_model=UserRead`. -/
def register (store : Store) (user_in : UserCreate) (salt : Nat) (now : Int) :
    RegisterResult × Store :=
  if (get_user_by_username store user_in.username).isSome
      || (get_user_by_email store user_in.email).isSome then
    (.failure { status_code := 400, detail := "User already exists." }, store)
  else
    let res := create_user store user_in salt now
    (.created (UserRead.ofUser res.1), res.2)

/-- The `Token` response body of the login endpoint. -/
structure Token where
  access_token : Jwt
  token_type : String
deriving DecidableEq, Repr

/-- Outcome of the login endpoint; an uncaught passlib exception surfaces as
an internal server error, not an `HTTPException`. -/
inductive LoginResult where
  | ok (t : Token)
  | httpError (e : HTTPError)
  | internalError (e : PasslibError)
deriving DecidableEq, Repr

def incorrectCredentials : HTTPError :=
  { status_code := 401, detail := "Incorrect username or password" }

def inactiveUser : HTTPError :=
  { status_code := 400, detail := "Inactive user" }

/-- `login_for_access_token(form_data, session)` from src/api/login.py:
authenticate; 401 on `None`; 400 "Inactive user" when the account is
inactive; otherwise issue a token for `user.username` with the configured
expiry and return `{access_token, token_type: "bearer"}`. -/
def login_for_access_token (s : Settings) (now : Int) (store : Store)
    (username password : String) : LoginResult :=
  match authenticate_user store username password with
  | .error e => .internalError e
  | .ok none => .httpError incorrectCredentials
  | .ok (some user) =>
    if !user.is_active then .httpError inactiveUser
    else
      .ok { access_token :=
              create_access_token s now user.username
                (some (s.ACCESS_TOKEN_EXPIRE_MINUTES * 60))
            token_type := "bearer" }

/-! ### Concrete fixtures for witnesses and counterexamples -/

def settings0 : Settings := { SECRET_KEY := "topsecret" }

def alice : User :=
  { id := 1, username := "alice", email := "a@x.com",
    password_hash := get_password_hash "secret1" 0,
    is_active := true, created_at := 0 }

def aliceInactive : User :=
  { id := 1, username := "alice", email := "a@x.com",
    password_hash := get_password_hash "secret1" 0,
    is_active := false, created_at := 0 }

def emptyNameUser : User :=
  { id := 1, username := "", email := "e@x.com",
    password_hash := get_password_hash "secret1" 0,
    is_active := true, created_at := 0 }

/-! ### Claims -/

/-- C1: for every subject `s` and every positive ttl, a token issued by
`create_access_token s ttl` verifies immediately after issuance: decoding
succeeds, the decoded `sub` claim equals the subject string, and
`get_current_user` proceeds to the store lookup with that subject (returning
the looked-up principal when one matches, the 401 otherwise). -/
theorem C1_issue_then_verify (s : Settings) (now : Int) (store : Store)
    (subject : String) (ttl : Int) (httl : 0 < ttl) :
    jwtDecode s.SECRET_KEY now (create_access_token s now subject (some ttl)) =
      .ok { exp := now + ttl, sub := some subject } ∧
    get_current_user s now store (create_access_token s now subject (some ttl)) =
      (match get_user_by_username store subject with
       | none => .error credentialsException
       | some u => .ok u) := by
  have hdec : jwtDecode s.SECRET_KEY now
      (create_access_token s now subject (some ttl)) =
      .ok { exp := now + ttl, sub := some subject } := by
    simp only [create_access_token, jwtEncode, jwtDecode, and_self, if_true]
    rw [if_neg (by omega)]
  refine ⟨hdec, ?_⟩
  simp only [get_current_user, hdec]

/-- Witness for C1 at subject "alice", ttl 60 seconds, empty store. -/
theorem C1_witness :
    (0 : Int) < 60 ∧
    (jwtDecode settings0.SECRET_KEY 0
        (create_access_token settings0 0 "alice" (some 60)) =
      .ok { exp := 0 + 60, sub := some "alice" } ∧
     get_current_user settings0 0 [] (create_access_token settings0 0 "alice" (some 60)) =
      (match get_user_by_username ([] : Store) "alice" with
       | none => .error credentialsException
       | some u => .ok u)) :=
  ⟨by decide, C1_issue_then_verify settings0 0 [] "alice" 60 (by decide)⟩

/-- C2: hashing a password and verifying it against the resulting hash
succeeds, and two hash calls with distinct salt draws (the randomized salt)
produce two different hash strings, both of which verify against the
password. -/
theorem C2_hash_then_verify (p : String) (s1 s2 : Nat) (hs : s1 ≠ s2) :
    get_password_hash p s1 ≠ get_password_hash p s2 ∧
    verify_password p (get_password_hash p s1) = .ok true ∧
    verify_password p (get_password_hash p s2) = .ok true := by
  refine ⟨?_, ?_, ?_⟩
  · intro h
    simp only [get_password_hash, bcryptDigest, HashStr.bcrypt.injEq] at h
    exact hs h.1
  · simp [verify_password, get_password_hash]
  · simp [verify_password, get_password_hash]

/-- Witness for C2 at password "secret1" and salt draws 0 and 1. -/
theorem C2_witness :
    (0 : Nat) ≠ 1 ∧
    (get_password_hash "secret1" 0 ≠ get_password_hash "secret1" 1 ∧
     verify_password "secret1" (get_password_hash "secret1" 0) = .ok true ∧
     verify_password "secret1" (get_password_hash "secret1" 1) = .ok true) :=
  ⟨by decide, C2_hash_then_verify "secret1" 0 1 (by decide)⟩

/-- C3 counterexample: on a stored string that is not a well-formed hash,
`verify_password` propagates passlib's `UnknownHashError` instead of
returning `false` — the claim that it "returns false and never raises" fails
on the string "not-a-hash". -/
theorem C3_counterexample :
    verify_password "secret1" (HashStr.malformed "not-a-hash") =
      .error .unknownHash ∧
    verify_password "secret1" (HashStr.malformed "not-a-hash") ≠ .ok false :=
  ⟨rfl, fun h => Except.noConfusion h⟩

/-- C3 amended: for a well-formed stored hash, `verify_password` returns true
iff the plaintext matches the password that produced the hash; for a
malformed stored hash it raises passlib's `UnknownHashError` (it does not
return false). -/
theorem C3_verify_result (plain other : String) (salt : Nat) (raw : String) :
    verify_password plain (get_password_hash other salt) =
      .ok (decide (plain = other)) ∧
    verify_password plain (HashStr.malformed raw) = .error .unknownHash := by
  constructor
  · by_cases hpo : plain = other
    · subst hpo
      simp [verify_password, get_password_hash]
    · simp [verify_password, get_password_hash, bcryptDigest, hpo, Ne.symm hpo]
  · rfl

/-- C10: every principal created through registration is persisted with
`is_active = true`: `create_user` hardcodes the flag, and flipping the
client-supplied `is_active` field of the request body does not change the
result at all. -/
theorem C10_is_active_hardcoded (store : Store) (uc : UserCreate) (salt : Nat)
    (now : Int) (b : Bool) :
    (create_user store uc salt now).1.is_active = true ∧
    create_user store { uc with is_active := b } salt now =
      create_user store uc salt now :=
  ⟨rfl, rfl⟩

/-- C4 counterexample: a validly signed, unexpired token whose `sub` claim is
the empty string is not rejected — `get_current_user` only checks
`payload.get("sub") is None`, `TokenPayload` places no constraint on the
string, and the lookup can succeed: with a registered principal whose
username is the empty string, resolution returns that principal. -/
theorem C4_counterexample :
    get_current_user settings0 0 [emptyNameUser]
      (create_access_token settings0 0 "" (some 3600)) = .ok emptyNameUser := rfl

/-- C4 amended: a validly signed, unexpired token with an absent `sub` claim
is rejected with the 401 `credentials_exception`; an empty-string `sub` is
not rejected at validation — resolution proceeds to the store lookup with the
empty username, returning the 401 only when no principal carries it. -/
theorem C4_missing_sub (s : Settings) (now : Int) (store : Store) (tok : Jwt)
    (hsig : tok.sigKey = s.SECRET_KEY ∧ tok.sigBody = tok.payload)
    (hexp : ¬ tok.payload.exp < now) :
    (tok.payload.sub = none →
      get_current_user s now store tok = .error credentialsException) ∧
    (tok.payload.sub = some "" →
      get_current_user s now store tok =
        (match get_user_by_username store "" with
         | none => .error credentialsException
         | some u => .ok u)) := by
  have hdec : jwtDecode s.SECRET_KEY now tok = .ok tok.payload := by
    simp only [jwtDecode]
    rw [if_pos hsig, if_neg hexp]
  constructor
  · intro hsub
    simp only [get_current_user, hdec, hsub]
  · intro hsub
    simp only [get_current_user, hdec, hsub]

/-- Witness for C4 on a signed, unexpired token carrying no `sub` claim. -/
theorem C4_witness :
    ((Jwt.mk { exp := 100, sub := none } "topsecret"
        { exp := 100, sub := none }).sigKey = settings0.SECRET_KEY ∧
     (Jwt.mk { exp := 100, sub := none } "topsecret"
        { exp := 100, sub := none }).sigBody =
       (Jwt.mk { exp := 100, sub := none } "topsecret"
          { exp := 100, sub := none }).payload) ∧
    ¬ (Jwt.mk { exp := 100, sub := none } "topsecret"
        { exp := 100, sub := none }).payload.exp < 0 ∧
    (((Jwt.mk { exp := 100, sub := none } "topsecret"
        { exp := 100, sub := none }).payload.sub = none →
      get_current_user settings0 0 []
        (Jwt.mk { exp := 100, sub := none } "topsecret"
          { exp := 100, sub := none }) = .error credentialsException) ∧
     ((Jwt.mk { exp := 100, sub := none } "topsecret"
        { exp := 100, sub := none }).payload.sub = some "" →
      get_current_user settings0 0 []
        (Jwt.mk { exp := 100, sub := none } "topsecret"
          { exp := 100, sub := none }) =
        (match get_user_by_username ([] : Store) "" with
         | none => .error credentialsException
         | some u => .ok u))) :=
  ⟨⟨by decide, rfl⟩, by decide,
    C4_missing_sub settings0 0 []
      (Jwt.mk { exp := 100, sub := none } "topsecret" { exp := 100, sub := none })
      ⟨by decide, rfl⟩ (by decide)⟩

/-- C5 counterexample: a token issued with ttl = 0 expires at the issuance
instant, yet presenting it at exactly that instant succeeds —
python-jose raises `ExpiredSignatureError` only when `exp < now`, so the
claim that the token is rejected at every time at or after the expiry fails
at `now = exp`. -/
theorem C5_counterexample :
    get_current_user settings0 0 [alice]
      (create_access_token settings0 0 "alice" (some 0)) = .ok alice := rfl

/-- C5 amended: a token is rejected at every instant strictly after its
expiry: whenever `exp < now`, `get_current_user` fails with the 401
`credentials_exception` (at `now = exp` the token is still accepted). -/
theorem C5_expired_rejected (s : Settings) (now : Int) (store : Store)
    (tok : Jwt) (hexp : tok.payload.exp < now) :
    get_current_user s now store tok = .error credentialsException := by
  by_cases hsig : tok.sigKey = s.SECRET_KEY ∧ tok.sigBody = tok.payload
  · simp only [get_current_user, jwtDecode]
    rw [if_pos hsig, if_pos hexp]
  · simp only [get_current_user, jwtDecode]
    rw [if_neg hsig]

/-- Witness for C5: the ttl = 0 token of the spec scenario, presented one
second after issuance, is rejected with the 401. -/
theorem C5_witness :
    (create_access_token settings0 0 "alice" (some 0)).payload.exp < 1 ∧
    get_current_user settings0 1 [alice]
      (create_access_token settings0 0 "alice" (some 0)) =
      .error credentialsException :=
  ⟨by decide,
    C5_expired_rejected settings0 1 [alice]
      (create_access_token settings0 0 "alice" (some 0)) (by decide)⟩

/-- C6: tampering with an issued token is rejected.  The HMAC signature is
modelled ideally, so a tampered token is one that differs from the issued
token and does not carry a valid signature under the server secret (producing
a valid signature for different bytes is exactly forging the MAC, which the
HMAC assumption rules out for a byte-level attacker).  Every such token is
rejected by `get_current_user` with the 401 `credentials_exception`, at every
verification time and against every store. -/
theorem C6_tampered_rejected (s : Settings) (now0 now : Int) (store : Store)
    (subject : String) (ttl : Option Int) (tok2 : Jwt)
    (htamper : tok2 ≠ create_access_token s now0 subject ttl)
    (hforge : ¬ (tok2.sigKey = s.SECRET_KEY ∧ tok2.sigBody = tok2.payload)) :
    get_current_user s now store tok2 = .error credentialsException := by
  have _ := htamper
  simp only [get_current_user, jwtDecode]
  rw [if_neg hforge]

/-- Witness for C6: the issued token for "alice" with its signature replaced
by one under a different key is rejected. -/
theorem C6_witness :
    (Jwt.mk { exp := 60, sub := some "alice" } "wrongkey"
        { exp := 60, sub := some "alice" }) ≠
      create_access_token settings0 0 "alice" (some 60) ∧
    ¬ ((Jwt.mk { exp := 60, sub := some "alice" } "wrongkey"
          { exp := 60, sub := some "alice" }).sigKey = settings0.SECRET_KEY ∧
       (Jwt.mk { exp := 60, sub := some "alice" } "wrongkey"
          { exp := 60, sub := some "alice" }).sigBody =
         (Jwt.mk { exp := 60, sub := some "alice" } "wrongkey"
            { exp := 60, sub := some "alice" }).payload) ∧
    get_current_user settings0 0 [alice]
      (Jwt.mk { exp := 60, sub := some "alice" } "wrongkey"
        { exp := 60, sub := some "alice" }) = .error credentialsException :=
  ⟨by decide, by decide,
    C6_tampered_rejected settings0 0 0 [alice] "alice" (some 60)
      (Jwt.mk { exp := 60, sub := some "alice" } "wrongkey"
        { exp := 60, sub := some "alice" }) (by decide) (by decide)⟩

/-- C8 counterexample: a still-unexpired, validly signed token whose
principal has been deactivated (but not deleted) resolves successfully —
`get_current_user` never consults `is_active`, so resolution returns the
deactivated principal instead of failing with the unauthorized outcome. -/
theorem C8_counterexample :
    get_current_user settings0 1 [aliceInactive]
      (create_access_token settings0 0 "alice" (some 3600)) =
      .ok aliceInactive := rfl

/-- C8 amended: for a validly signed, unexpired token, resolution returns
exactly the outcome of the store lookup on the token subject: when the
principal was deleted (lookup yields nothing), it fails with the same 401
`credentials_exception` value produced for an invalid token; when the
principal is still present — active or deactivated — resolution succeeds and
returns it (`is_active` is never checked). -/
theorem C8_lookup_outcome (s : Settings) (now : Int) (store : Store)
    (tok : Jwt) (username : String)
    (hsig : tok.sigKey = s.SECRET_KEY ∧ tok.sigBody = tok.payload)
    (hexp : ¬ tok.payload.exp < now)
    (hsub : tok.payload.sub = some username) :
    get_current_user s now store tok =
      (match get_user_by_username store username with
       | none => .error credentialsException
       | some u => .ok u) := by
  have hdec : jwtDecode s.SECRET_KEY now tok = .ok tok.payload := by
    simp only [jwtDecode]
    rw [if_pos hsig, if_neg hexp]
  simp only [get_current_user, hdec, hsub]

/-- Witness for C8: a signed, unexpired token for "ghost" against a store in
which the principal no longer exists resolves to the 401. -/
theorem C8_witness :
    ((Jwt.mk { exp := 50, sub := some "ghost" } "topsecret"
        { exp := 50, sub := some "ghost" }).sigKey = settings0.SECRET_KEY ∧
     (Jwt.mk { exp := 50, sub := some "ghost" } "topsecret"
        { exp := 50, sub := some "ghost" }).sigBody =
       (Jwt.mk { exp := 50, sub := some "ghost" } "topsecret"
          { exp := 50, sub := some "ghost" }).payload) ∧
    ¬ (Jwt.mk { exp := 50, sub := some "ghost" } "topsecret"
        { exp := 50, sub := some "ghost" }).payload.exp < 0 ∧
    (Jwt.mk { exp := 50, sub := some "ghost" } "topsecret"
        { exp := 50, sub := some "ghost" }).payload.sub = some "ghost" ∧
    get_current_user settings0 0 []
      (Jwt.mk { exp := 50, sub := some "ghost" } "topsecret"
        { exp := 50, sub := some "ghost" }) =
      (match get_user_by_username ([] : Store) "ghost" with
       | none => .error credentialsException
       | some u => .ok u) :=
  ⟨⟨by decide, rfl⟩, by decide, rfl,
    C8_lookup_outcome settings0 0 []
      (Jwt.mk { exp := 50, sub := some "ghost" } "topsecret"
        { exp := 50, sub := some "ghost" }) "ghost"
      ⟨by decide, rfl⟩ (by decide) rfl⟩

def aliceCreate : UserCreate :=
  { email := "a@x.com", username := "alice", password := "secret1" }

def aliceCreate2 : UserCreate :=
  { email := "b@x.com", username := "alice", password := "secret2" }

/-- C7: registering a fresh username/email succeeds exactly once: the success
response is the created principal serialized through the public `UserRead`
projection (a shape with no password and no password-hash field), and a
second registration re-using the username or the email fails with the 400
duplicate conflict, leaving the store unchanged — no second principal is
created. -/
theorem C7_duplicate_registration (store : Store) (uc1 uc2 : UserCreate)
    (salt1 salt2 : Nat) (now1 now2 : Int)
    (hfreshU : get_user_by_username store uc1.username = none)
    (hfreshE : get_user_by_email store uc1.email = none)
    (hdup : uc2.username = uc1.username ∨ uc2.email = uc1.email) :
    (register store uc1 salt1 now1).1 =
      .created (UserRead.ofUser (create_user store uc1 salt1 now1).1) ∧
    (register store uc1 salt1 now1).2 =
      store ++ [(create_user store uc1 salt1 now1).1] ∧
    register (register store uc1 salt1 now1).2 uc2 salt2 now2 =
      (.failure { status_code := 400, detail := "User already exists." },
       (register store uc1 salt1 now1).2) := by
  have hfreshU2 : store.find? (fun u => u.username == uc1.username) = none :=
    hfreshU
  have hfreshE2 : store.find? (fun u => u.email == uc1.email) = none :=
    hfreshE
  have h1 : register store uc1 salt1 now1 =
      (.created (UserRead.ofUser (create_user store uc1 salt1 now1).1),
       store ++ [(create_user store uc1 salt1 now1).1]) := by
    simp [register, hfreshU, hfreshE, create_user]
  refine ⟨by rw [h1], by rw [h1], ?_⟩
  rw [h1]
  rcases hdup with h | h
  · simp [register, get_user_by_username, get_user_by_email, h, create_user,
      List.find?_append, hfreshU2]
  · simp [register, get_user_by_username, get_user_by_email, h, create_user,
      List.find?_append, hfreshE2]

/-- Witness for C7: registering "alice" into an empty store, then attempting
a second registration with the same username. -/
theorem C7_witness :
    get_user_by_username ([] : Store) aliceCreate.username = none ∧
    get_user_by_email ([] : Store) aliceCreate.email = none ∧
    (aliceCreate2.username = aliceCreate.username ∨
      aliceCreate2.email = aliceCreate.email) ∧
    ((register ([] : Store) aliceCreate 0 0).1 =
        .created (UserRead.ofUser (create_user ([] : Store) aliceCreate 0 0).1) ∧
     (register ([] : Store) aliceCreate 0 0).2 =
        ([] : Store) ++ [(create_user ([] : Store) aliceCreate 0 0).1] ∧
     register (register ([] : Store) aliceCreate 0 0).2 aliceCreate2 1 0 =
        (.failure { status_code := 400, detail := "User already exists." },
         (register ([] : Store) aliceCreate 0 0).2)) :=
  ⟨rfl, rfl, Or.inl rfl,
    C7_duplicate_registration ([] : Store) aliceCreate aliceCreate2 0 1 0 0
      rfl rfl (Or.inl rfl)⟩

/-- C9 counterexample: logging in with correct credentials on a deactivated
account does not produce the unauthorized signal — the code raises a distinct
HTTP 400 "Inactive user", while bad credentials get the 401; the two
externally observable outcomes differ. -/
theorem C9_counterexample :
    login_for_access_token settings0 0 [aliceInactive] "alice" "secret1" =
      .httpError inactiveUser ∧
    (.httpError inactiveUser : LoginResult) ≠ .httpError incorrectCredentials ∧
    inactiveUser.status_code = 400 ∧ incorrectCredentials.status_code = 401 :=
  ⟨rfl, by decide, rfl, rfl⟩

/-- C9 amended: login succeeds with `{access_token, token_type: "bearer"}`
exactly when the username exists, the password verifies against the stored
hash, and the account is active; bad credentials (unknown username or failing
password) yield the 401 unauthorized signal, while an inactive account with
correct credentials yields the distinct 400 "Inactive user" outcome. -/
theorem C9_login_outcomes (s : Settings) (now : Int) (store : Store)
    (username password : String) :
    ((∃ t, login_for_access_token s now store username password = .ok t) ↔
      (∃ u, get_user_by_username store username = some u ∧
        verify_password password u.password_hash = .ok true ∧
        u.is_active = true)) ∧
    (login_for_access_token s now store username password =
        .httpError incorrectCredentials ↔
      (get_user_by_username store username = none ∨
        ∃ u, get_user_by_username store username = some u ∧
          verify_password password u.password_hash = .ok false)) ∧
    (login_for_access_token s now store username password =
        .httpError inactiveUser ↔
      (∃ u, get_user_by_username store username = some u ∧
        verify_password password u.password_hash = .ok true ∧
        u.is_active = false)) ∧
    ((∃ u, get_user_by_username store username = some u ∧
        verify_password password u.password_hash = .ok true ∧
        u.is_active = true ∧
        login_for_access_token s now store username password =
          .ok { access_token := create_access_token s now u.username
                  (some (s.ACCESS_TOKEN_EXPIRE_MINUTES * 60)),
                token_type := "bearer" }) ↔
      (∃ u, get_user_by_username store username = some u ∧
        verify_password password u.password_hash = .ok true ∧
        u.is_active = true)) := by
  rcases hfind : get_user_by_username store username with _ | u
  · simp [login_for_access_token, authenticate_user, hfind,
      incorrectCredentials, inactiveUser]
  · rcases hv : verify_password password u.password_hash with e | b
    · simp [login_for_access_token, authenticate_user, hfind, hv,
        incorrectCredentials, inactiveUser]
    · cases b with
      | false =>
        simp [login_for_access_token, authenticate_user, hfind, hv,
          incorrectCredentials, inactiveUser]
      | true =>
        rcases ha : u.is_active with _ | _
        · simp [login_for_access_token, authenticate_user, hfind, hv, ha,
            incorrectCredentials, inactiveUser]
        · simp [login_for_access_token, authenticate_user, hfind, hv, ha]

end FitnessApp
